import Mathlib

/-!
Verification of the minitorch dataset generator (`minitorch/module.py`).

The Python module is embedded shallowly:

* Python floats are modelled as elements of a linear ordered field `α`;
  the five uniform-sampling generators are stated generically (so they can
  be evaluated at `ℚ` and reasoned about at `ℝ`), while the spiral
  generator, which calls `math.cos` / `math.sin`, is modelled at `ℝ`.
* `random.random()` is modelled by an explicit stream `rand : ℕ → α` of
  drawn values: iteration `i` of `make_pts` draws `rand (2*i)` for `x_1`
  and `rand (2*i+1)` for `x_2`, matching the order of the two calls.
* Python's `range(a, b)` over ints is `pyRange a b`; `range(N)` is
  `List.range N.toNat` (empty for negative `N`, as in Python); integer
  floor division `//` is `Int.fdiv`.
* The registry `datasets` is a dictionary; lookup is modelled as an
  `Option`-valued function, a missing key (Python `KeyError`) being `none`.
-/

namespace Minitorch

/-- Python `range(a, b)` over integers: `[a, a+1, ..., b-1]`, empty when `b ≤ a`. -/
def pyRange (a b : ℤ) : List ℤ :=
  (List.range (b - a).toNat).map (fun k : ℕ => a + (k : ℤ))

/-- `make_pts(N)`: `N` iterations, each appending the pair
`(random.random(), random.random())`; the stream `rand` supplies the drawn
values in order. -/
def make_pts {α : Type} (N : ℤ) (rand : ℕ → α) : List (α × α) :=
  (List.range N.toNat).map (fun i => (rand (2 * i), rand (2 * i + 1)))

/-- The `Graph` dataclass: a count `N`, points `X` and labels `y`. -/
structure Graph (α : Type) where
  N : ℤ
  X : List (α × α)
  y : List ℤ
  deriving DecidableEq

/-- `simple(N)`: labels `1 if x_1 < 0.5 else 0`. -/
def simple {α : Type} [LinearOrderedField α] (N : ℤ) (rand : ℕ → α) : Graph α :=
  let X := make_pts N rand
  let y := X.map (fun p => if p.1 < 0.5 then (1 : ℤ) else 0)
  Graph.mk N X y

/-- `diag(N)`: labels `1 if x_1 + x_2 < 0.5 else 0`. -/
def diag {α : Type} [LinearOrderedField α] (N : ℤ) (rand : ℕ → α) : Graph α :=
  let X := make_pts N rand
  let y := X.map (fun p => if p.1 + p.2 < 0.5 then (1 : ℤ) else 0)
  Graph.mk N X y

/-- `split(N)`: labels `1 if x_1 < 0.2 or x_1 > 0.8 else 0`. -/
def split {α : Type} [LinearOrderedField α] (N : ℤ) (rand : ℕ → α) : Graph α :=
  let X := make_pts N rand
  let y := X.map (fun p => if p.1 < 0.2 ∨ p.1 > 0.8 then (1 : ℤ) else 0)
  Graph.mk N X y

/-- `xor(N)`: labels `1 if x_1 < 0.5 and x_2 > 0.5 or x_1 > 0.5 and x_2 < 0.5 else 0`. -/
def xor {α : Type} [LinearOrderedField α] (N : ℤ) (rand : ℕ → α) : Graph α :=
  let X := make_pts N rand
  let y := X.map (fun p => if (p.1 < 0.5 ∧ p.2 > 0.5) ∨ (p.1 > 0.5 ∧ p.2 < 0.5) then (1 : ℤ) else 0)
  Graph.mk N X y

/-- `circle(N)`: with `x1, x2 = x_1 - 0.5, x_2 - 0.5`, labels
`1 if x1 * x1 + x2 * x2 > 0.1 else 0`. -/
def circle {α : Type} [LinearOrderedField α] (N : ℤ) (rand : ℕ → α) : Graph α :=
  let X := make_pts N rand
  let y := X.map (fun p =>
    let x1 := p.1 - 0.5
    let x2 := p.2 - 0.5
    if x1 * x1 + x2 * x2 > 0.1 then (1 : ℤ) else 0)
  Graph.mk N X y

/-- The helper `x(t) = t * math.cos(t) / 20.0` local to `spiral`. -/
noncomputable def spiral.x (t : ℝ) : ℝ := t * Real.cos t / 20.0

/-- The helper `y(t) = t * math.sin(t) / 20.0` local to `spiral`. -/
noncomputable def spiral.y (t : ℝ) : ℝ := t * Real.sin t / 20.0

/-- `spiral(N)`: arm A is the comprehension over `range(5 + 0, 5 + N // 2)`
of `(x(10.0 * (i / (N // 2))) + 0.5, y(10.0 * (i / (N // 2))) + 0.5)`,
arm B the comprehension of `(y(-10.0 * (i / (N // 2))) + 0.5,
x(-10.0 * (i / (N // 2))) + 0.5)` over the same range; the labels are
`[0] * (N // 2) + [1] * (N // 2)` and the count field stores the
requested `N`. -/
noncomputable def spiral (N : ℤ) : Graph ℝ :=
  let X1 := (pyRange (5 + 0) (5 + N.fdiv 2)).map (fun i : ℤ =>
    (spiral.x (10.0 * ((i : ℝ) / ((N.fdiv 2 : ℤ) : ℝ))) + 0.5,
     spiral.y (10.0 * ((i : ℝ) / ((N.fdiv 2 : ℤ) : ℝ))) + 0.5))
  let X2 := (pyRange (5 + 0) (5 + N.fdiv 2)).map (fun i : ℤ =>
    (spiral.y (-10.0 * ((i : ℝ) / ((N.fdiv 2 : ℤ) : ℝ))) + 0.5,
     spiral.x (-10.0 * ((i : ℝ) / ((N.fdiv 2 : ℤ) : ℝ))) + 0.5))
  let y2 := List.replicate (N.fdiv 2).toNat (0 : ℤ) ++ List.replicate (N.fdiv 2).toNat (1 : ℤ)
  Graph.mk N (X1 ++ X2) y2

/-- The registry `datasets = {'Simple': simple, ..., 'Spiral': spiral}`;
lookup of a missing key (Python `KeyError`) is `none`.  The generators are
instantiated at `ℝ`; `spiral` takes no random stream, so its entry ignores
that argument. -/
noncomputable def datasets (name : String) : Option (ℤ → (ℕ → ℝ) → Graph ℝ) :=
  if name = "Simple" then some simple
  else if name = "Diag" then some diag
  else if name = "Split" then some split
  else if name = "Xor" then some xor
  else if name = "Circle" then some circle
  else if name = "Spiral" then some (fun N _ => spiral N)
  else none

/-- The spec's shape invariant for a dataset built for a requested count:
the stored count is the request, points and labels both have that length,
and every label is 0 or 1. -/
def shapeOK {α : Type} (G : Graph α) (N : ℤ) : Prop :=
  G.N = N ∧ (G.X.length : ℤ) = N ∧ (G.y.length : ℤ) = N ∧ ∀ l ∈ G.y, l = 0 ∨ l = 1

/-- Every coordinate of every point of the dataset lies in `[0, 1)`. -/
def inUnit {α : Type} [LinearOrderedField α] (G : Graph α) : Prop :=
  ∀ p ∈ G.X, 0 ≤ p.1 ∧ p.1 < 1 ∧ 0 ≤ p.2 ∧ p.2 < 1

lemma make_pts_length {α : Type} (N : ℤ) (rand : ℕ → α) :
    (make_pts N rand).length = N.toNat := by
  simp [make_pts]

lemma mem_make_pts {α : Type} {N : ℤ} {rand : ℕ → α} {p : α × α}
    (hp : p ∈ make_pts N rand) : ∃ i : ℕ, p = (rand (2 * i), rand (2 * i + 1)) := by
  rcases List.mem_map.1 hp with ⟨i, -, rfl⟩
  exact ⟨i, rfl⟩

lemma pyRange_length (a b : ℤ) : (pyRange a b).length = (b - a).toNat := by
  rw [pyRange, List.length_map, List.length_range]

lemma pyRange_getElem (a b : ℤ) (j : ℕ) (hj : j < (b - a).toNat) :
    (pyRange a b)[j]? = some (a + (j : ℤ)) := by
  rw [pyRange, List.getElem?_map, List.getElem?_range hj, Option.map_some']

lemma ite_zero_or_one (c : Prop) [Decidable c] :
    (if c then (1 : ℤ) else 0) = 0 ∨ (if c then (1 : ℤ) else 0) = 1 := by
  split
  · exact Or.inr rfl
  · exact Or.inl rfl

lemma shape_mk {α : Type} (N : ℤ) (hN : 0 ≤ N) (rand : ℕ → α)
    (f : α × α → ℤ) (hf : ∀ p, f p = 0 ∨ f p = 1) :
    shapeOK (Graph.mk N (make_pts N rand) ((make_pts N rand).map f)) N := by
  refine ⟨rfl, ?_, ?_, ?_⟩
  · rw [make_pts_length, Int.toNat_of_nonneg hN]
  · rw [List.length_map, make_pts_length, Int.toNat_of_nonneg hN]
  · intro l hl
    rcases List.mem_map.1 hl with ⟨p, -, rfl⟩
    exact hf p

/-- C1: for every generator among simple, diag, split, xor, circle and every
integer `N ≥ 0` (and any values drawn by the sampler), the returned `Graph`
stores the requested `N`, has `N` points, `N` labels, and every label is
0 or 1. -/
theorem uniform_generators_shape {α : Type} [LinearOrderedField α]
    (N : ℤ) (rand : ℕ → α) (hN : 0 ≤ N) :
    shapeOK (simple N rand) N ∧ shapeOK (diag N rand) N ∧ shapeOK (split N rand) N ∧
    shapeOK (xor N rand) N ∧ shapeOK (circle N rand) N :=
  ⟨shape_mk N hN rand _ (fun _ => ite_zero_or_one _),
   shape_mk N hN rand _ (fun _ => ite_zero_or_one _),
   shape_mk N hN rand _ (fun _ => ite_zero_or_one _),
   shape_mk N hN rand _ (fun _ => ite_zero_or_one _),
   shape_mk N hN rand _ (fun _ => ite_zero_or_one _)⟩

/-- Application of C1 at `N = 2` over `ℚ` with a concrete stream. -/
theorem uniform_generators_shape_app :
    shapeOK (simple (2 : ℤ) (fun _ => (0 : ℚ))) 2 ∧
    shapeOK (diag (2 : ℤ) (fun _ => (0 : ℚ))) 2 ∧
    shapeOK (split (2 : ℤ) (fun _ => (0 : ℚ))) 2 ∧
    shapeOK (xor (2 : ℤ) (fun _ => (0 : ℚ))) 2 ∧
    shapeOK (circle (2 : ℤ) (fun _ => (0 : ℚ))) 2 :=
  uniform_generators_shape 2 (fun _ => 0) (by decide)

/-- C2 counterexample: at the concrete negative input `N = -1`, `simple`
does not fail; it returns the ordinary record `Graph(-1, [], [])`
(Python's `range(-1)` is empty, so no error path exists in the code). -/
theorem negative_N_counterexample :
    simple (-1 : ℤ) (fun _ => (0 : ℚ)) = Graph.mk (-1) [] [] := rfl

/-- C2 amended: for every negative `N`, `make_pts` returns the empty list and
every generator returns `Graph(N, [], [])` — an empty dataset that still
stores the requested negative `N`; no error is raised. -/
theorem negative_N_returns_empty {α : Type} [LinearOrderedField α]
    (N : ℤ) (rand : ℕ → α) (hN : N < 0) :
    make_pts N rand = [] ∧
    simple N rand = Graph.mk N [] [] ∧
    diag N rand = Graph.mk N [] [] ∧
    split N rand = Graph.mk N [] [] ∧
    xor N rand = Graph.mk N [] [] ∧
    circle N rand = Graph.mk N [] [] ∧
    spiral N = Graph.mk N [] [] := by
  have h0 : N.toNat = 0 := by omega
  have hm : make_pts N rand = [] := by simp [make_pts, h0]
  have he : N.fdiv 2 = N / 2 := @Int.fdiv_eq_ediv N 2 (by norm_num)
  have h1 : (5 + N.fdiv 2 - (5 + 0)).toNat = 0 := by omega
  have h2 : (N.fdiv 2).toNat = 0 := by omega
  refine ⟨hm, ?_, ?_, ?_, ?_, ?_, ?_⟩
  · simp [simple, hm]
  · simp [diag, hm]
  · simp [split, hm]
  · simp [xor, hm]
  · simp [circle, hm]
  · simp [spiral, pyRange, h1, h2]

/-- Application of C2's amended statement at `N = -1` over `ℚ`. -/
theorem negative_N_returns_empty_app :
    make_pts (-1 : ℤ) (fun _ => (0 : ℚ)) = [] ∧
    simple (-1 : ℤ) (fun _ => (0 : ℚ)) = Graph.mk (-1) [] [] ∧
    diag (-1 : ℤ) (fun _ => (0 : ℚ)) = Graph.mk (-1) [] [] ∧
    split (-1 : ℤ) (fun _ => (0 : ℚ)) = Graph.mk (-1) [] [] ∧
    xor (-1 : ℤ) (fun _ => (0 : ℚ)) = Graph.mk (-1) [] [] ∧
    circle (-1 : ℤ) (fun _ => (0 : ℚ)) = Graph.mk (-1) [] [] ∧
    spiral (-1) = Graph.mk (-1) [] [] :=
  negative_N_returns_empty (-1) (fun _ => 0) (by decide)

lemma make_pts_coords {α : Type} [LinearOrderedField α] {N : ℤ} {rand : ℕ → α}
    (h : ∀ n, 0 ≤ rand n ∧ rand n < 1) :
    ∀ p ∈ make_pts N rand, 0 ≤ p.1 ∧ p.1 < 1 ∧ 0 ≤ p.2 ∧ p.2 < 1 := by
  intro p hp
  rcases mem_make_pts hp with ⟨i, rfl⟩
  exact ⟨(h _).1, (h _).2, (h _).1, (h _).2⟩

/-- C9: for every `N ≥ 0` (indeed every `N`) and every stream of sampled
values lying in `[0, 1)` — the contract of `random.random()` — every
coordinate of every point produced by the five uniform-sampling generators
lies in `[0, 1)`. -/
theorem uniform_in_unit {α : Type} [LinearOrderedField α]
    (N : ℤ) (rand : ℕ → α) (h : ∀ n, 0 ≤ rand n ∧ rand n < 1) :
    inUnit (simple N rand) ∧ inUnit (diag N rand) ∧ inUnit (split N rand) ∧
    inUnit (xor N rand) ∧ inUnit (circle N rand) :=
  ⟨make_pts_coords h, make_pts_coords h, make_pts_coords h,
   make_pts_coords h, make_pts_coords h⟩

/-- Application of C9 at `N = 1` over `ℚ` with the constant stream `1/2`. -/
theorem uniform_in_unit_app :
    inUnit (simple (1 : ℤ) (fun _ => (1/2 : ℚ))) ∧
    inUnit (diag (1 : ℤ) (fun _ => (1/2 : ℚ))) ∧
    inUnit (split (1 : ℤ) (fun _ => (1/2 : ℚ))) ∧
    inUnit (xor (1 : ℤ) (fun _ => (1/2 : ℚ))) ∧
    inUnit (circle (1 : ℤ) (fun _ => (1/2 : ℚ))) :=
  uniform_in_unit 1 (fun _ => 1/2) (fun _ => ⟨by norm_num, by norm_num⟩)

/-- C4: in a dataset produced by `circle`, the label at any index is 1 when
the point at that index has squared distance from `(0.5, 0.5)` exceeding
`0.1`, and 0 otherwise. -/
theorem circle_label_rule {α : Type} [LinearOrderedField α]
    (N : ℤ) (rand : ℕ → α) (i : ℕ) (p : α × α)
    (hp : (circle N rand).X[i]? = some p) :
    (circle N rand).y[i]? =
      some (if (p.1 - 0.5) ^ 2 + (p.2 - 0.5) ^ 2 > 0.1 then 1 else 0) := by
  have hy : (circle N rand).y = (circle N rand).X.map
      (fun q => if (q.1 - 0.5) * (q.1 - 0.5) + (q.2 - 0.5) * (q.2 - 0.5) > 0.1
        then (1 : ℤ) else 0) := rfl
  rw [hy, List.getElem?_map, hp, Option.map_some']
  simp only [pow_two]

/-- Application of C4 over `ℚ`: the sampled dataset holds the center point
`(0.5, 0.5)` (label 0) and the origin `(0.0, 0.0)` (squared distance `0.5`,
label 1). -/
theorem circle_label_rule_app :
    (circle (2 : ℤ) (fun n => if n < 2 then (0.5 : ℚ) else 0)).X[0]? = some ((0.5 : ℚ), (0.5 : ℚ)) ∧
    (circle (2 : ℤ) (fun n => if n < 2 then (0.5 : ℚ) else 0)).y[0]? =
      some (if ((0.5 : ℚ) - 0.5) ^ 2 + ((0.5 : ℚ) - 0.5) ^ 2 > 0.1 then 1 else 0) ∧
    (circle (2 : ℤ) (fun n => if n < 2 then (0.5 : ℚ) else 0)).y[0]? = some 0 ∧
    (circle (2 : ℤ) (fun n => if n < 2 then (0.5 : ℚ) else 0)).X[1]? = some (0, 0) ∧
    (circle (2 : ℤ) (fun n => if n < 2 then (0.5 : ℚ) else 0)).y[1]? =
      some (if ((0 : ℚ) - 0.5) ^ 2 + ((0 : ℚ) - 0.5) ^ 2 > 0.1 then 1 else 0) ∧
    (circle (2 : ℤ) (fun n => if n < 2 then (0.5 : ℚ) else 0)).y[1]? = some 1 :=
  ⟨rfl,
   circle_label_rule 2 (fun n => if n < 2 then (0.5 : ℚ) else 0) 0 (0.5, 0.5) rfl,
   (circle_label_rule 2 (fun n => if n < 2 then (0.5 : ℚ) else 0) 0 (0.5, 0.5) rfl).trans
     (by norm_num),
   rfl,
   circle_label_rule 2 (fun n => if n < 2 then (0.5 : ℚ) else 0) 1 (0, 0) rfl,
   (circle_label_rule 2 (fun n => if n < 2 then (0.5 : ℚ) else 0) 1 (0, 0) rfl).trans
     (by norm_num)⟩

/-- C5: in a dataset produced by `xor`, the label at any index is 1 when the
point lies in opposing quadrants (`x1 < 0.5` and `x2 > 0.5`, or `x1 > 0.5`
and `x2 < 0.5`), and 0 otherwise. -/
theorem xor_label_rule {α : Type} [LinearOrderedField α]
    (N : ℤ) (rand : ℕ → α) (i : ℕ) (p : α × α)
    (hp : (xor N rand).X[i]? = some p) :
    (xor N rand).y[i]? =
      some (if (p.1 < 0.5 ∧ p.2 > 0.5) ∨ (p.1 > 0.5 ∧ p.2 < 0.5) then 1 else 0) := by
  have hy : (xor N rand).y = (xor N rand).X.map
      (fun q => if (q.1 < 0.5 ∧ q.2 > 0.5) ∨ (q.1 > 0.5 ∧ q.2 < 0.5)
        then (1 : ℤ) else 0) := rfl
  rw [hy, List.getElem?_map, hp, Option.map_some']

/-- Application of C5 over `ℚ`: the sampled dataset holds `(0.2, 0.8)`
(label 1) and `(0.2, 0.2)` (label 0). -/
theorem xor_label_rule_app :
    (xor (2 : ℤ) (fun n => if n = 1 then (0.8 : ℚ) else 0.2)).X[0]? = some ((0.2 : ℚ), (0.8 : ℚ)) ∧
    (xor (2 : ℤ) (fun n => if n = 1 then (0.8 : ℚ) else 0.2)).y[0]? =
      some (if ((0.2 : ℚ) < 0.5 ∧ (0.8 : ℚ) > 0.5) ∨ ((0.2 : ℚ) > 0.5 ∧ (0.8 : ℚ) < 0.5)
        then 1 else 0) ∧
    (xor (2 : ℤ) (fun n => if n = 1 then (0.8 : ℚ) else 0.2)).y[0]? = some 1 ∧
    (xor (2 : ℤ) (fun n => if n = 1 then (0.8 : ℚ) else 0.2)).X[1]? = some ((0.2 : ℚ), (0.2 : ℚ)) ∧
    (xor (2 : ℤ) (fun n => if n = 1 then (0.8 : ℚ) else 0.2)).y[1]? =
      some (if ((0.2 : ℚ) < 0.5 ∧ (0.2 : ℚ) > 0.5) ∨ ((0.2 : ℚ) > 0.5 ∧ (0.2 : ℚ) < 0.5)
        then 1 else 0) ∧
    (xor (2 : ℤ) (fun n => if n = 1 then (0.8 : ℚ) else 0.2)).y[1]? = some 0 :=
  ⟨rfl,
   xor_label_rule 2 (fun n => if n = 1 then (0.8 : ℚ) else 0.2) 0 (0.2, 0.8) rfl,
   (xor_label_rule 2 (fun n => if n = 1 then (0.8 : ℚ) else 0.2) 0 (0.2, 0.8) rfl).trans
     (by norm_num),
   rfl,
   xor_label_rule 2 (fun n => if n = 1 then (0.8 : ℚ) else 0.2) 1 (0.2, 0.2) rfl,
   (xor_label_rule 2 (fun n => if n = 1 then (0.8 : ℚ) else 0.2) 1 (0.2, 0.2) rfl).trans
     (by norm_num)⟩

lemma spiral_X_length (N : ℤ) : (spiral N).X.length = 2 * (N.fdiv 2).toNat := by
  have h55 : 5 + N.fdiv 2 - (5 + 0) = N.fdiv 2 := by ring
  simp only [spiral, List.length_append, List.length_map, pyRange_length, h55]
  omega

lemma spiral_y_def (N : ℤ) :
    (spiral N).y = List.replicate (N.fdiv 2).toNat 0 ++ List.replicate (N.fdiv 2).toNat 1 := rfl

lemma fdiv_two_eq (N : ℤ) : N.fdiv 2 = N / 2 := @Int.fdiv_eq_ediv N 2 (by norm_num)

/-- C3: for every `N ≥ 0`, `spiral(N)` has point and label sequences of
length exactly `2 * (N // 2)` — equal to `N` when `N` is even ("for N = 10
the result has length 10") and to `N - 1` when `N` is odd (one fewer point
than requested) — and its labels are `N // 2` zeros (arm A) followed by
`N // 2` ones (arm B). -/
theorem spiral_shape (N : ℤ) (hN : 0 ≤ N) :
    ((spiral N).X.length : ℤ) = 2 * N.fdiv 2 ∧
    ((spiral N).y.length : ℤ) = 2 * N.fdiv 2 ∧
    (spiral N).y = List.replicate (N.fdiv 2).toNat 0 ++ List.replicate (N.fdiv 2).toNat 1 ∧
    (N % 2 = 0 → ((spiral N).X.length : ℤ) = N) ∧
    (N % 2 = 1 → ((spiral N).X.length : ℤ) = N - 1) := by
  have he := fdiv_two_eq N
  have hX := spiral_X_length N
  have hy : (spiral N).y.length = 2 * (N.fdiv 2).toNat := by
    rw [spiral_y_def, List.length_append, List.length_replicate, List.length_replicate]
    omega
  refine ⟨?_, ?_, spiral_y_def N, ?_, ?_⟩
  · omega
  · omega
  · intro h2; omega
  · intro h2; omega

/-- Application of C3 at `N = 10`. -/
theorem spiral_shape_app :
    ((spiral 10).X.length : ℤ) = 2 * (10 : ℤ).fdiv 2 ∧
    ((spiral 10).y.length : ℤ) = 2 * (10 : ℤ).fdiv 2 ∧
    (spiral 10).y = List.replicate ((10 : ℤ).fdiv 2).toNat 0 ++
      List.replicate ((10 : ℤ).fdiv 2).toNat 1 ∧
    ((10 : ℤ) % 2 = 0 → ((spiral 10).X.length : ℤ) = 10) ∧
    ((10 : ℤ) % 2 = 1 → ((spiral 10).X.length : ℤ) = 10 - 1) :=
  spiral_shape 10 (by decide)

/-- C10: for every `N ≥ 0`, `spiral(N)` stores the requested `N` in its
count field even though for odd `N` the point list has `N - 1` entries, so
for odd `N` the count field exceeds the number of points by one. -/
theorem spiral_count_mismatch (N : ℤ) (hN : 0 ≤ N) :
    (spiral N).N = N ∧
    (N % 2 = 1 → ((spiral N).X.length : ℤ) = N - 1 ∧
      (spiral N).N = ((spiral N).X.length : ℤ) + 1) := by
  have he := fdiv_two_eq N
  have hX := spiral_X_length N
  refine ⟨rfl, fun hodd => ?_⟩
  have hlen : ((spiral N).X.length : ℤ) = N - 1 := by omega
  refine ⟨hlen, ?_⟩
  rw [hlen]
  show N = N - 1 + 1
  omega

/-- Application of C10 at the odd input `N = 11`. -/
theorem spiral_count_mismatch_app :
    (spiral 11).N = 11 ∧
    ((11 : ℤ) % 2 = 1 → ((spiral 11).X.length : ℤ) = 11 - 1 ∧
      (spiral 11).N = ((spiral 11).X.length : ℤ) + 1) :=
  spiral_count_mismatch 11 (by decide)

/-- C8: the only division in the module whose divisor can be zero is
`spiral`'s `i / (N // 2)`; whenever `N // 2 = 0` (so for `N = 0` and
`N = 1`) both comprehensions range over the empty `range(5, 5)`, the
division is never evaluated, and the generator returns an empty dataset
rather than failing. -/
theorem spiral_no_division (N : ℤ) (h : N.fdiv 2 = 0) :
    (spiral N).X = [] ∧ (spiral N).y = [] ∧ (spiral N).N = N := by
  refine ⟨?_, ?_, rfl⟩
  · have h1 : (5 + N.fdiv 2 - (5 + 0)).toNat = 0 := by omega
    simp [spiral, pyRange, h1]
    omega
  · rw [spiral_y_def, h]
    rfl

/-- Application of C8 at `N = 1`, where `N // 2 = 0`. -/
theorem spiral_no_division_app :
    (spiral 1).X = [] ∧ (spiral 1).y = [] ∧ (spiral 1).N = 1 :=
  spiral_no_division 1 (by decide)

/-- C6: for every `N` with `half = N // 2 ≥ 1` and every comprehension index
`i ∈ [5, 5 + half)`, the arm-A point of `spiral(N)` (at list position
`i - 5`) is `(x(t) + 0.5, y(t) + 0.5)` with `t = 10 * (i / half)`, and the
arm-B point at the same `i` (list position `half + (i - 5)`) is
`(y(t') + 0.5, x(t') + 0.5)` — the same helpers with negated argument
`t' = -10 * (i / half)` and swapped axes. -/
theorem spiral_arm_points (N : ℤ) (h1 : 1 ≤ N.fdiv 2)
    (i : ℤ) (h5 : 5 ≤ i) (hi : i < 5 + N.fdiv 2) :
    (spiral N).X[(i - 5).toNat]? =
      some (spiral.x (10.0 * ((i : ℝ) / ((N.fdiv 2 : ℤ) : ℝ))) + 0.5,
            spiral.y (10.0 * ((i : ℝ) / ((N.fdiv 2 : ℤ) : ℝ))) + 0.5) ∧
    (spiral N).X[((N.fdiv 2).toNat + (i - 5).toNat)]? =
      some (spiral.y (-10.0 * ((i : ℝ) / ((N.fdiv 2 : ℤ) : ℝ))) + 0.5,
            spiral.x (-10.0 * ((i : ℝ) / ((N.fdiv 2 : ℤ) : ℝ))) + 0.5) := by
  have hXdef : (spiral N).X =
      (pyRange (5 + 0) (5 + N.fdiv 2)).map (fun j : ℤ =>
        (spiral.x (10.0 * ((j : ℝ) / ((N.fdiv 2 : ℤ) : ℝ))) + 0.5,
         spiral.y (10.0 * ((j : ℝ) / ((N.fdiv 2 : ℤ) : ℝ))) + 0.5)) ++
      (pyRange (5 + 0) (5 + N.fdiv 2)).map (fun j : ℤ =>
        (spiral.y (-10.0 * ((j : ℝ) / ((N.fdiv 2 : ℤ) : ℝ))) + 0.5,
         spiral.x (-10.0 * ((j : ℝ) / ((N.fdiv 2 : ℤ) : ℝ))) + 0.5)) := rfl
  have hlen : ((pyRange (5 + 0) (5 + N.fdiv 2)).map (fun j : ℤ =>
        (spiral.x (10.0 * ((j : ℝ) / ((N.fdiv 2 : ℤ) : ℝ))) + 0.5,
         spiral.y (10.0 * ((j : ℝ) / ((N.fdiv 2 : ℤ) : ℝ))) + 0.5))).length
      = (N.fdiv 2).toNat := by
    rw [List.length_map, pyRange_length]
    congr 1
    ring
  have hjlt : (i - 5).toNat < (5 + N.fdiv 2 - (5 + 0)).toNat := by omega
  have hcast : (5 + 0 : ℤ) + ((i - 5).toNat : ℤ) = i := by omega
  constructor
  · rw [hXdef, List.getElem?_append_left (by rw [hlen]; omega), List.getElem?_map,
        pyRange_getElem _ _ _ hjlt, Option.map_some', hcast]
  · rw [hXdef, List.getElem?_append_right (by rw [hlen]; omega), hlen]
    have hsub : (N.fdiv 2).toNat + (i - 5).toNat - (N.fdiv 2).toNat = (i - 5).toNat := by
      omega
    rw [hsub, List.getElem?_map, pyRange_getElem _ _ _ hjlt, Option.map_some', hcast]

/-- Application of C6 at `N = 2` (so `half = 1`) and `i = 5`. -/
theorem spiral_arm_points_app :
    (spiral 2).X[((5 : ℤ) - 5).toNat]? =
      some (spiral.x (10.0 * (((5 : ℤ) : ℝ) / (((2 : ℤ).fdiv 2 : ℤ) : ℝ))) + 0.5,
            spiral.y (10.0 * (((5 : ℤ) : ℝ) / (((2 : ℤ).fdiv 2 : ℤ) : ℝ))) + 0.5) ∧
    (spiral 2).X[(((2 : ℤ).fdiv 2).toNat + ((5 : ℤ) - 5).toNat)]? =
      some (spiral.y (-10.0 * (((5 : ℤ) : ℝ) / (((2 : ℤ).fdiv 2 : ℤ) : ℝ))) + 0.5,
            spiral.x (-10.0 * (((5 : ℤ) : ℝ) / (((2 : ℤ).fdiv 2 : ℤ) : ℝ))) + 0.5) :=
  spiral_arm_points 2 (by decide) 5 (by decide) (by decide)

/-- C7: the registry maps exactly the keys Simple, Diag, Split, Xor, Circle,
Spiral to their generator functions (so looking up "Xor" yields the very
`xor` generator, with identical labeling behavior), and looking up any other
key, such as "Unknown", finds nothing (Python `KeyError`). -/
theorem datasets_registry :
    datasets "Simple" = some simple ∧
    datasets "Diag" = some diag ∧
    datasets "Split" = some split ∧
    datasets "Xor" = some xor ∧
    datasets "Circle" = some circle ∧
    datasets "Spiral" = some (fun N _ => spiral N) ∧
    datasets "Unknown" = none ∧
    ∀ s : String, (datasets s).isSome = true ↔
      (s = "Simple" ∨ s = "Diag" ∨ s = "Split" ∨ s = "Xor" ∨ s = "Circle" ∨ s = "Spiral") := by
  refine ⟨rfl, rfl, rfl, rfl, rfl, rfl, rfl, ?_⟩
  intro s
  unfold datasets
  split_ifs with a b c d e f <;> simp_all
